import Mathlib

/-!
Verification of the scheduling/dispatch engine of the multi-channel
scheduler bot (source: `abcd.py`).  The Python classes
`AdaptiveRateLimiter`, `SmartRetrySystem` and `ThreeModeScheduler` are
shallowly embedded as pure Lean functions over explicit state records.
Wall-clock instants and token balances are rationals, the database of
posts is the list of post records handed to the dispatch functions, and
the external Telegram transport is a parameter
`deliver : String → Nat → Option String` returning `none` on success and
`some errorMessage` on a `TelegramError`.
-/

/-! ### String helpers

Python's `x in s` substring test and `str.lower`, modelled on the
character lists underlying `String`. -/

/-- Does the second list start with the first one (pattern, text)? -/
def listStartsWith : List Char → List Char → Bool
  | [], _ => true
  | _ :: _, [] => false
  | a :: as, b :: bs => a == b && listStartsWith as bs

/-- Does `text` contain `pat` as a contiguous sublist? -/
def containsSub (pat : List Char) : List Char → Bool
  | [] => listStartsWith pat []
  | c :: cs => listStartsWith pat (c :: cs) || containsSub pat cs

/-- Python's `pat in hay` substring containment on strings. -/
def strContains (hay pat : String) : Bool :=
  containsSub pat.data hay.data

/-- ASCII lowercasing of one character (the error patterns matched by the
classifier are ASCII). -/
def lowerChar : Char → Char
  | 'A' => 'a' | 'B' => 'b' | 'C' => 'c' | 'D' => 'd' | 'E' => 'e'
  | 'F' => 'f' | 'G' => 'g' | 'H' => 'h' | 'I' => 'i' | 'J' => 'j'
  | 'K' => 'k' | 'L' => 'l' | 'M' => 'm' | 'N' => 'n' | 'O' => 'o'
  | 'P' => 'p' | 'Q' => 'q' | 'R' => 'r' | 'S' => 's' | 'T' => 't'
  | 'U' => 'u' | 'V' => 'v' | 'W' => 'w' | 'X' => 'x' | 'Y' => 'y'
  | 'Z' => 'z' | c => c

/-- Python's `str.lower()` (per-character lowercasing). -/
def strLower (s : String) : String :=
  ⟨s.data.map lowerChar⟩

/-! ### Finite-set and dict helpers

Python `set` and `dict` values of the health tracker.  A set is a
duplicate-free list, a `dict` is an insertion-ordered key list plus a
total valuation that is the default value off the key list. -/

/-- Boolean membership in a list of strings (Python `x in s`). -/
def memS (x : String) : List String → Bool
  | [] => false
  | y :: ys => x == y || memS x ys

/-- Python `set.add`. -/
def addToSet (l : List String) (x : String) : List String :=
  if memS x l then l else l ++ [x]

/-- Python `set.remove` (the caller checks membership first). -/
def removeFromSet (l : List String) (x : String) : List String :=
  l.filter (fun y => y != x)

/-- Insert a key into a dict's insertion-ordered key list. -/
def addKey (l : List String) (x : String) : List String :=
  if memS x l then l else l ++ [x]

/-! ### `SmartRetrySystem` (abcd.py lines 233-304) -/

/-- One entry appended to `failure_history[channel_id]`: the classified
type, the error message, the optional post id and the wall-clock time. -/
structure FailureEntry where
  ftype : String
  msg : String
  post_id : Option Nat
  time : ℚ
deriving Repr, DecidableEq

/-- State of `SmartRetrySystem`: skip list (a set), failure history
(dict channel → list of entries) and consecutive-failure counters
(dict channel → int), each dict as key list + total valuation. -/
structure SmartRetrySystem where
  max_retries : Nat
  alert_threshold : Nat
  skip_list : List String
  fh_keys : List String
  fh_val : String → List FailureEntry
  cf_keys : List String
  cf_val : String → Nat

/-- Embedding of `SmartRetrySystem.__init__` with the module constants
`MAX_RETRY_ATTEMPTS = 3`, `ALERT_THRESHOLD = 5`. -/
def initSmartRetry : SmartRetrySystem :=
  { max_retries := 3
    alert_threshold := 5
    skip_list := []
    fh_keys := []
    fh_val := fun _ => []
    cf_keys := []
    cf_val := fun _ => 0 }

/-- Patterns of the first `any(...)` of `classify_error`. -/
def permanentPatterns : List String :=
  ["bot was kicked", "bot was blocked", "chat not found",
   "user is deactivated"]

/-- Patterns of the second `any(...)` of `classify_error`. -/
def rateLimitPatterns : List String :=
  ["flood", "too many requests", "retry after"]

/-- Python's `any(x in error_msg for x in pats)`. -/
def matchesAny (pats : List String) (error_msg : String) : Bool :=
  pats.any (fun x => strContains error_msg x)

/-- Embedding of `SmartRetrySystem.classify_error`: lowercase the message, check the
permanent patterns first, then the rate-limit patterns, else temporary. -/
def classify_error (error : String) : String :=
  let error_msg := strLower error
  if matchesAny permanentPatterns error_msg then "permanent"
  else if matchesAny rateLimitPatterns error_msg then "rate_limit"
  else "temporary"

/-- Embedding of `SmartRetrySystem.record_failure`: classify, append to the history,
bump the consecutive counter unless temporary, and skip-list the channel
when permanent.  `now` is the `utc_now()` timestamp of the entry. -/
def record_failure (s : SmartRetrySystem) (channel_id : String)
    (error : String) (post_id : Option Nat) (now : ℚ) : SmartRetrySystem :=
  let error_type := classify_error error
  let entry : FailureEntry := ⟨error_type, error, post_id, now⟩
  let s :=
    { s with
      fh_keys := addKey s.fh_keys channel_id
      fh_val := fun k =>
        if k == channel_id then s.fh_val channel_id ++ [entry] else s.fh_val k }
  let s :=
    if error_type != "temporary" then
      { s with
        cf_keys := addKey s.cf_keys channel_id
        cf_val := fun k =>
          if k == channel_id then s.cf_val channel_id + 1 else s.cf_val k }
    else s
  if error_type == "permanent" then
    { s with skip_list := addToSet s.skip_list channel_id }
  else s

/-- Embedding of `SmartRetrySystem.record_success`: zero the consecutive counter and
drop the channel from the skip list. -/
def record_success (s : SmartRetrySystem) (channel_id : String) :
    SmartRetrySystem :=
  { s with
    cf_keys := addKey s.cf_keys channel_id
    cf_val := fun k => if k == channel_id then 0 else s.cf_val k
    skip_list :=
      if memS channel_id s.skip_list then removeFromSet s.skip_list channel_id
      else s.skip_list }

/-- Embedding of `SmartRetrySystem.should_skip`. -/
def should_skip (s : SmartRetrySystem) (channel_id : String) : Bool :=
  memS channel_id s.skip_list

/-- Embedding of `SmartRetrySystem.needs_alert`. -/
def needs_alert (s : SmartRetrySystem) (channel_id : String) : Bool :=
  s.alert_threshold ≤ s.cf_val channel_id

/-- Result of `SmartRetrySystem.get_health_report`. -/
structure HealthReport where
  healthy : List String
  warning : List String
  critical : List String
  skip_l : List String
deriving Repr, DecidableEq

/-- Embedding of `SmartRetrySystem.get_health_report`: partition the channels with a
consecutive-failure entry by their counter value. -/
def get_health_report (s : SmartRetrySystem) : HealthReport :=
  { healthy := s.cf_keys.filter (fun k => s.cf_val k == 0)
    warning := s.cf_keys.filter
      (fun k => !(s.cf_val k == 0) && decide (s.cf_val k < s.alert_threshold))
    critical := s.cf_keys.filter
      (fun k => !(s.cf_val k == 0) && !decide (s.cf_val k < s.alert_threshold))
    skip_l := s.skip_list }

/-! ### Event sequences against the health tracker -/

/-- An observable event fed to the health tracker: a recorded failure
(with its raw error string) or a recorded success. -/
inductive REv
  | fail (ch : String) (err : String) (post_id : Option Nat) (time : ℚ)
  | succ (ch : String)
deriving Repr, DecidableEq

/-- Apply one event to the tracker state. -/
def applyREv (s : SmartRetrySystem) : REv → SmartRetrySystem
  | .fail ch err pid t => record_failure s ch err pid t
  | .succ ch => record_success s ch

/-- Run a sequence of events from a given state. -/
def runREvs (s : SmartRetrySystem) (evs : List REv) : SmartRetrySystem :=
  evs.foldl applyREv s

/-! Specification-side predicates over event histories, for claim C6.
`claimSkipPred` is the claim's own condition (the most recent terminal
classification for the channel is permanent and no success since it);
`permSince` is the amended condition (some permanent classification has
been recorded for the channel and no success for it since). -/

/-- Most recent terminal (non-temporary) classification for `d` and
whether a success for `d` was recorded after it. -/
def lastTerminalAcc (d : String) :
    Option String × Bool → List REv → Option String × Bool
  | acc, [] => acc
  | acc, .fail ch err _ _ :: rest =>
    if ch == d && classify_error err != "temporary" then
      lastTerminalAcc d (some (classify_error err), false) rest
    else lastTerminalAcc d acc rest
  | acc, .succ ch :: rest =>
    if ch == d then lastTerminalAcc d (acc.1, true) rest
    else lastTerminalAcc d acc rest

/-- Claim C6 as stated: the most recent terminal classification for `d`
was permanent, and no success for `d` has been recorded since it. -/
def claimSkipPred (d : String) (evs : List REv) : Bool :=
  let acc := lastTerminalAcc d (none, false) evs
  acc.1 == some "permanent" && !acc.2

/-- Amended condition, threaded from an initial value: a permanent
classification for `d` flips it to true, a success for `d` flips it to
false, every other event leaves it unchanged. -/
def permSinceFrom (d : String) : Bool → List REv → Bool
  | b, [] => b
  | b, .fail ch err _ _ :: rest =>
    permSinceFrom d
      (if ch == d && classify_error err == "permanent" then true else b) rest
  | b, .succ ch :: rest =>
    permSinceFrom d (if ch == d then false else b) rest

/-- Amended C6 condition: a permanent classification has been recorded
for `d` and no success for `d` since. -/
def permSince (d : String) (evs : List REv) : Bool :=
  permSinceFrom d false evs

/-! ### `AdaptiveRateLimiter` (abcd.py lines 146-227)

Module constants: `RATE_LIMIT_GLOBAL = 25` msg/sec,
`RATE_LIMIT_PER_CHAT = 18` msg/min, `BURST_ALLOWANCE = 50`.  Times and
token balances are rationals; the event-loop clock is passed in as
`now`, and the token-bucket updates of `acquire_global`/`acquire_chat`
are modelled as pure functions of the current balance and the elapsed
time since the last update of that bucket. -/

def RATE_LIMIT_GLOBAL : ℚ := 25

def RATE_LIMIT_PER_CHAT : ℚ := 18

def BURST_ALLOWANCE : ℚ := 50

/-- Adaptive-control state of `AdaptiveRateLimiter` (the per-bucket
token balances are handled by the pure bucket updates below). -/
structure AdaptiveRateLimiter where
  base_global_rate : ℚ
  per_chat_rate : ℚ
  current_rate : ℚ
  flood_detected : Bool
  last_flood_time : Option ℚ
  success_count : Nat
deriving Repr, DecidableEq

/-- Embedding of `AdaptiveRateLimiter.__init__` with the module constants. -/
def initLimiter : AdaptiveRateLimiter :=
  { base_global_rate := RATE_LIMIT_GLOBAL
    per_chat_rate := RATE_LIMIT_PER_CHAT
    current_rate := RATE_LIMIT_GLOBAL
    flood_detected := false
    last_flood_time := none
    success_count := 0 }

/-- Balance update of `AdaptiveRateLimiter.acquire_global`: refill by
`time_passed * current_rate` capped at `BURST_ALLOWANCE`; if the balance
is below one token, sleep `(1 - tokens) / current_rate` and zero the
balance, else consume one token.  Returns the new balance and the sleep
duration. -/
def acquire_global_tokens (tokens : ℚ) (current_rate : ℚ)
    (time_passed : ℚ) : ℚ × ℚ :=
  let t := tokens + time_passed * current_rate
  let t := if BURST_ALLOWANCE < t then BURST_ALLOWANCE else t
  if t < 1 then (0, (1 - t) / current_rate) else (t - 1, 0)

/-- Balance update of `AdaptiveRateLimiter.acquire_chat`: the identical
algorithm with capacity `per_chat_rate` and refill rate
`per_chat_rate / 60` tokens per second. -/
def acquire_chat_tokens (tokens : ℚ) (per_chat_rate : ℚ)
    (time_passed : ℚ) : ℚ × ℚ :=
  let t := tokens + time_passed * (per_chat_rate / 60)
  let t := if per_chat_rate < t then per_chat_rate else t
  if t < 1 then (0, (1 - t) / (per_chat_rate / 60)) else (t - 1, 0)

/-- Embedding of `AdaptiveRateLimiter.report_flood_control` at event-loop time `now`. -/
def report_flood_control (s : AdaptiveRateLimiter) (now : ℚ) :
    AdaptiveRateLimiter :=
  { s with
    flood_detected := true
    last_flood_time := some now
    current_rate := max (s.current_rate * (7 / 10)) 10 }

/-- Python float truthiness of `self.last_flood_time` (`None` and `0.0`
are falsy). -/
def floodTimeTruthy : Option ℚ → Bool
  | none => false
  | some t => !(t == 0)

/-- Embedding of `AdaptiveRateLimiter.report_success` at event-loop time `now`:
increment the success counter; once `flood_detected` and the counter has
reached 50 and strictly more than 60 seconds have passed since the last
flood signal, recover `current_rate * 1.1` capped at the base rate,
reset the counter, and clear `flood_detected` when the recovered rate
reaches the base rate. -/
def report_success (s : AdaptiveRateLimiter) (now : ℚ) :
    AdaptiveRateLimiter :=
  let s := { s with success_count := s.success_count + 1 }
  if s.flood_detected && decide (50 ≤ s.success_count) then
    if floodTimeTruthy s.last_flood_time
        && decide (60 < now - (s.last_flood_time.getD 0)) then
      let r := min (s.current_rate * (11 / 10)) s.base_global_rate
      { s with
        current_rate := r
        success_count := 0
        flood_detected :=
          if s.base_global_rate ≤ r then false else s.flood_detected }
    else s
  else s

/-! ### Posts and the dispatch engine (`ThreeModeScheduler`, abcd.py
lines 782-878)

A `Post` is the slice of a `posts` row the dispatch engine reads or
writes; `scheduled_time` is a UTC instant in seconds and `batch_id` the
optional tag column.  The Telegram transport (the four `bot.send_*`
calls) is a parameter `deliver : String → Nat → Option String` from
(channel id, post id) to `none` on success or `some msg` for a
`TelegramError` with text `msg`. -/

structure Post where
  id : Nat
  message : String
  posted : Bool
  successful_posts : Nat
  scheduled_time : ℚ
  batch_id : Option String
deriving Repr, DecidableEq

/-- Observable actions of a dispatch pass, in program order:
`acq ch` — the Governor acquisition `rate_limiter.acquire(ch)`;
`send ch pid` — a `bot.send_*` delivery call for the pair;
`skipped ch pid` — the skip-list fast path (no acquisition, no call);
`mark pid` — the `UPDATE posts SET posted = 1 ...` persistence. -/
inductive Ev
  | acq (ch : String)
  | send (ch : String) (pid : Nat)
  | skipped (ch : String) (pid : Nat)
  | mark (pid : Nat)
deriving Repr, DecidableEq

/-- Mutable scheduler state threaded through a dispatch pass. -/
structure DispatchState where
  retry : SmartRetrySystem
  limiter : AdaptiveRateLimiter
  emergency_stopped : Bool

/-- Embedding of `ThreeModeScheduler.send_post_to_channel`: skip-listed channels
return `False` immediately (no Governor acquisition, no delivery call);
otherwise acquire the Governor and deliver; on success report to the
limiter and tracker; on a `TelegramError` signal flood control when the
lowercased text contains `flood` or `too many requests`, then record the
failure.  Returns the success flag, the new state and the emitted
events. -/
def send_post_to_channel (deliver : String → Nat → Option String)
    (now : ℚ) (st : DispatchState) (post : Post) (channel_id : String) :
    Bool × DispatchState × List Ev :=
  if should_skip st.retry channel_id then
    (false, st, [.skipped channel_id post.id])
  else
    match deliver channel_id post.id with
    | none =>
      (true,
       { st with
         limiter := report_success st.limiter now
         retry := record_success st.retry channel_id },
       [.acq channel_id, .send channel_id post.id])
    | some e =>
      let lim :=
        if strContains (strLower e) "flood"
            || strContains (strLower e) "too many requests" then
          report_flood_control st.limiter now
        else st.limiter
      (false,
       { st with
         limiter := lim
         retry := record_failure st.retry channel_id e (some post.id) now },
       [.acq channel_id, .send channel_id post.id])

/-- The `asyncio.gather` fan-out of one post over `channel_ids`:
results in channel order (gather preserves order; the concurrent
interleaving is modelled by its deterministic linearization). -/
def sendResults (deliver : String → Nat → Option String) (now : ℚ) :
    DispatchState → Post → List String →
    List Bool × DispatchState × List Ev
  | st, _, [] => ([], st, [])
  | st, post, ch :: rest =>
    let r1 := send_post_to_channel deliver now st post ch
    let r2 := sendResults deliver now r1.2.1 post rest
    (r1.1 :: r2.1, r2.2.1, r1.2.2 ++ r2.2.2)

/-- Per-post failure list appended to `failed_sends`: the pairs
`(post_id, channel_ids[idx])` with a falsy result, in channel order. -/
def failedOf (pid : Nat) : List String → List Bool → List (Nat × String)
  | ch :: chs, r :: rs =>
    (if r then [] else [(pid, ch)]) ++ failedOf pid chs rs
  | _, _ => []

/-- Count of `True` results (`successful = sum(results)`). -/
def countTrue : List Bool → Nat
  | [] => 0
  | b :: bs => (if b then 1 else 0) + countTrue bs

/-- Main loop of `send_batch_to_all_channels` over the batch posts:
fan out each post, persist `posted = 1` and the success tally, and
accumulate `failed_sends`.  Returns the updated rows, the final state,
`failed_sends` and the event trace.  (`emergency_stopped` cannot change
during a pure pass, so the per-post emergency check never fires once the
entry check has passed.) -/
def sendBatchLoop (deliver : String → Nat → Option String) (now : ℚ)
    (channel_ids : List String) :
    DispatchState → List Post →
    List Post × DispatchState × List (Nat × String) × List Ev
  | st, [] => ([], st, [], [])
  | st, post :: rest =>
    let r1 := sendResults deliver now st post channel_ids
    let results := r1.1
    let post' := { post with
      posted := true, successful_posts := countTrue results }
    let fails := failedOf post.id channel_ids results
    let r2 := sendBatchLoop deliver now channel_ids r1.2.1 rest
    (post' :: r2.1, r2.2.1, fails ++ r2.2.2.1,
     r1.2.2 ++ .mark post.id :: r2.2.2.2)

/-- Retry pass of `send_batch_to_all_channels`: re-fetch each failed
post by id from the updated rows and send it once more through
`send_post_to_channel` (an id absent from the rows is a no-op; every
recorded failure comes from a row of this batch). -/
def retryLoop (deliver : String → Nat → Option String) (now : ℚ)
    (rows : List Post) :
    DispatchState → List (Nat × String) → DispatchState × List Ev
  | st, [] => (st, [])
  | st, (pid, ch) :: rest =>
    match rows.find? (fun p => p.id == pid) with
    | some post =>
      let r1 := send_post_to_channel deliver now st post ch
      let r2 := retryLoop deliver now rows r1.2.1 rest
      (r2.1, r1.2.2 ++ r2.2)
    | none => retryLoop deliver now rows st rest

/-- Embedding of `ThreeModeScheduler.send_batch_to_all_channels`: no-op when
emergency-stopped; otherwise run the per-post loop, then — when there
are failures — the single retry pass.  (The trailing `needs_alert` scan
only logs and mutates nothing.)  Returns the updated rows, the final
state, `failed_sends` and the event trace. -/
def send_batch_to_all_channels (deliver : String → Nat → Option String)
    (now : ℚ) (st : DispatchState) (channel_ids : List String)
    (posts : List Post) :
    List Post × DispatchState × List (Nat × String) × List Ev :=
  if st.emergency_stopped then (posts, st, [], [])
  else
    let r := sendBatchLoop deliver now channel_ids st posts
    if r.2.2.1 ≠ [] then
      let r2 := retryLoop deliver now r.1 r.2.1 r.2.2.1
      (r.1, r2.1, r.2.2.1, r.2.2.2 ++ r2.2)
    else (r.1, r.2.1, r.2.2.1, r.2.2.2)

/-! ### Batch resolver (`ThreeModeScheduler.process_due_posts`,
abcd.py lines 898-926)

The grouping section of `process_due_posts` partitions the ordered due
posts into `(last_time, current_batch)` pairs.  Crucially, `last_time`
and `last_batch_id` are only assigned when a batch is *started*, so both
the tag comparison and the 5-second proximity test are made against the
first post of the current batch, not the immediately preceding post. -/

/-- Python string truthiness of `batch_id` (`None` and `''` are falsy). -/
def tagTruthy : Option String → Bool
  | none => false
  | some b => !(b == "")

/-- Python's `abs` on a rational number of seconds. -/
def ratAbs (q : ℚ) : ℚ := if q < 0 then -q else q

/-- Loop state of the grouping section. -/
structure GroupSt where
  batches : List (ℚ × List Post)
  current_batch : List Post
  last_time : Option ℚ
  last_batch_id : Option String

/-- One iteration of the grouping loop. -/
def groupStep (st : GroupSt) (post : Post) : GroupSt :=
  match st.last_time with
  | none =>
    { st with
      current_batch := [post]
      last_time := some post.scheduled_time
      last_batch_id := post.batch_id }
  | some lt =>
    let time_diff := ratAbs (post.scheduled_time - lt)
    if tagTruthy post.batch_id && post.batch_id == st.last_batch_id then
      { st with current_batch := st.current_batch ++ [post] }
    else if time_diff ≤ 5 then
      { st with current_batch := st.current_batch ++ [post] }
    else
      { batches := st.batches ++ [(lt, st.current_batch)]
        current_batch := [post]
        last_time := some post.scheduled_time
        last_batch_id := post.batch_id }

/-- The trailing `if current_batch: batches.append(...)` flush. -/
def flushGroup (st : GroupSt) : List (ℚ × List Post) :=
  if st.current_batch ≠ [] then
    st.batches ++ [(st.last_time.getD 0, st.current_batch)]
  else st.batches

/-- The grouping section of `process_due_posts`: fold the loop over the
ordered due posts and flush the trailing non-empty batch. -/
def groupBatches (posts : List Post) : List (ℚ × List Post) :=
  flushGroup (posts.foldl groupStep ⟨[], [], none, none⟩)

/-! Specification-side partition functions for claim C2.  `specRuns` is
the claim's own rule (tag shared with the run, or proximity to the
*immediately preceding* post); `anchorRuns` is the amended rule (tag and
proximity both measured against the *first* post of the current run). -/

/-- Claim C2 as stated: continue the run when the next post shares a
non-null tag with some member of the run, or lies within 5 seconds of
the immediately preceding post (`prevT`); otherwise start a new run. -/
def specRunsGo (prevT : ℚ) (runTags : List (Option String))
    (run : List Post) : List Post → List (List Post)
  | [] => [run]
  | q :: rest =>
    if tagTruthy q.batch_id && runTags.contains q.batch_id then
      specRunsGo q.scheduled_time (runTags ++ [q.batch_id])
        (run ++ [q]) rest
    else if ratAbs (q.scheduled_time - prevT) ≤ 5 then
      specRunsGo q.scheduled_time (runTags ++ [q.batch_id])
        (run ++ [q]) rest
    else
      run :: specRunsGo q.scheduled_time [q.batch_id] [q] rest

/-- Claim C2 as stated, on a whole list. -/
def specRuns : List Post → List (List Post)
  | [] => []
  | p :: rest => specRunsGo p.scheduled_time [p.batch_id] [p] rest

/-- Amended rule: continue the run when the next post carries the
truthy tag of the run's first post, or lies within 5 seconds of the
run's first post (`anchorT`); otherwise start a new run. -/
def anchorGo (anchorT : ℚ) (anchorTag : Option String)
    (run : List Post) : List Post → List (List Post)
  | [] => [run]
  | q :: rest =>
    if tagTruthy q.batch_id && q.batch_id == anchorTag then
      anchorGo anchorT anchorTag (run ++ [q]) rest
    else if ratAbs (q.scheduled_time - anchorT) ≤ 5 then
      anchorGo anchorT anchorTag (run ++ [q]) rest
    else
      run :: anchorGo q.scheduled_time q.batch_id [q] rest

/-- Amended rule on a whole list. -/
def anchorRuns : List Post → List (List Post)
  | [] => []
  | p :: rest => anchorGo p.scheduled_time p.batch_id [p] rest

/-! ### Trace predicates and bucket runs -/

/-- Number of `mark pid` events in a trace. -/
def countMark (pid : Nat) : List Ev → Nat
  | [] => 0
  | e :: tr =>
    (match e with | .mark q => if q = pid then 1 else 0 | _ => 0)
      + countMark pid tr

/-- Does the event resolve the fan-out of pair `(pid, ch)` — either an
actual delivery call or the skip fast path? -/
def resolvesPair (ch : String) (pid : Nat) (e : Ev) : Bool :=
  e == .send ch pid || e == .skipped ch pid

/-- Does the event attempt channel `c` — a Governor acquisition or a
delivery call on `c`? -/
def attemptsOn (c : String) : Ev → Bool
  | .acq ch => ch == c
  | .send ch _ => ch == c
  | _ => false

/-- Successive global-bucket balances over a sequence of
`acquire_global` calls with the given elapsed times. -/
def runGlobalBucket (tokens current_rate : ℚ) : List ℚ → List ℚ
  | [] => []
  | e :: es =>
    let t := (acquire_global_tokens tokens current_rate e).1
    t :: runGlobalBucket t current_rate es

/-- Successive per-chat-bucket balances over a sequence of
`acquire_chat` calls on one chat with the given elapsed times. -/
def runChatBucket (tokens per_chat_rate : ℚ) : List ℚ → List ℚ
  | [] => []
  | e :: es =>
    let t := (acquire_chat_tokens tokens per_chat_rate e).1
    t :: runChatBucket t per_chat_rate es

/-! ### Concrete instances used by the witnesses and counterexamples -/

/-- Fresh scheduler state: fresh tracker, fresh limiter, not stopped. -/
def freshDispatch : DispatchState :=
  { retry := initSmartRetry, limiter := initLimiter,
    emergency_stopped := false }

/-- Transport where channel `B` always fails with a permanent-failure
signal and every other channel succeeds. -/
def deliverKickedB : String → Nat → Option String :=
  fun ch _ =>
    if ch == "B" then some "Bot was kicked from the channel" else none

/-- Transport that always succeeds. -/
def deliverOk : String → Nat → Option String := fun _ _ => none

/-- Transport that always fails with a bare `retry after` message. -/
def deliverRetryAfter : String → Nat → Option String :=
  fun _ _ => some "Retry after 30"

/-- Transport that always fails with a flood message. -/
def deliverFlood : String → Nat → Option String :=
  fun _ _ => some "Flood control exceeded"

/-- Three fresh text posts, ids 1-3, scheduled at time 0. -/
def posts3 : List Post :=
  [⟨1, "m1", false, 0, 0, none⟩, ⟨2, "m2", false, 0, 0, none⟩,
   ⟨3, "m3", false, 0, 0, none⟩]

/-- The claim-C3 scenario: 3 posts × channels `A`, `B`, `B` failing
permanently, one dispatch pass from fresh state. -/
def run3 : List Post × DispatchState × List (Nat × String) × List Ev :=
  send_batch_to_all_channels deliverKickedB 0 freshDispatch ["A", "B"] posts3

/-- Scheduler state whose tracker has already skip-listed `B` (reached
by recording one permanent failure for `B` from fresh state). -/
def skipBDispatch : DispatchState :=
  { freshDispatch with
    retry := record_failure initSmartRetry "B" "bot was blocked" none 0 }

/-- One post, channels `A`, `B` with `B` skip-listed, all deliveries
succeeding: the skipped pair still enters `failed_sends`. -/
def run4 : List Post × DispatchState × List (Nat × String) × List Ev :=
  send_batch_to_all_channels deliverOk 0 skipBDispatch ["A", "B"]
    [⟨1, "m1", false, 0, 0, none⟩]

/-- One post on one always-succeeding channel from fresh state. -/
def run1w : List Post × DispatchState × List (Nat × String) × List Ev :=
  send_batch_to_all_channels deliverOk 0 freshDispatch ["A"]
    [⟨1, "m1", false, 0, 0, none⟩]

/-- One attempt that fails with a bare `retry after` message. -/
def run9 : Bool × DispatchState × List Ev :=
  send_post_to_channel deliverRetryAfter 0 freshDispatch
    ⟨1, "m1", false, 0, 0, none⟩ "A"

/-- Limiter state after a flood signal at time 100 followed by 49
successes at time 110 (still degraded, counter at 49, rate
`25 * 0.7 = 17.5`); the reachability of this state from `initLimiter`
is proved below (`cexLimiter_reachable`). -/
def cexLimiter : AdaptiveRateLimiter :=
  { base_global_rate := 25
    per_chat_rate := 18
    current_rate := 35 / 2
    flood_detected := true
    last_flood_time := some 100
    success_count := 49 }

/-- The four posts of the batch-grouping example: times 0, 2, 4, 30
seconds, no tags. -/
def e1 : Post := ⟨1, "a", false, 0, 0, none⟩

def e2 : Post := ⟨2, "b", false, 0, 2, none⟩

def e3 : Post := ⟨3, "c", false, 0, 4, none⟩

def e4 : Post := ⟨4, "d", false, 0, 30, none⟩

/-- Posts at times 0, 4 and 8 seconds, no tags: each is within 5
seconds of its predecessor, but the third is 8 seconds from the first. -/
def g1 : Post := ⟨1, "a", false, 0, 0, none⟩

def g2 : Post := ⟨2, "b", false, 0, 4, none⟩

def g3 : Post := ⟨3, "c", false, 0, 8, none⟩

/-! ### Helper lemmas -/

theorem memS_append (x : String) (l1 l2 : List String) :
    memS x (l1 ++ l2) = (memS x l1 || memS x l2) := by
  induction l1 with
  | nil => simp [memS]
  | cons y ys ih => simp [memS, ih, Bool.or_assoc]

theorem memS_addToSet (x c : String) (l : List String) :
    memS x (addToSet l c) = (memS x l || x == c) := by
  unfold addToSet
  split
  · next h =>
    by_cases hx : (x == c) = true
    · have hxc : x = c := eq_of_beq hx
      subst hxc
      simp [h, hx]
    · simp [hx]
  · simp [memS_append, memS]

theorem memS_removeFromSet (x c : String) (l : List String) :
    memS x (removeFromSet l c) = (memS x l && x != c) := by
  induction l with
  | nil => simp [removeFromSet, memS]
  | cons y ys ih =>
    unfold removeFromSet at ih ⊢
    by_cases hy : (y != c) = true
    · by_cases hxy : (x == y) = true
      · have hxye : x = y := eq_of_beq hxy
        subst hxye
        simp [List.filter, memS, hy]
      · simp [List.filter, memS, hy, hxy, ih]
    · have hyc : y = c := by simpa [bne] using hy
      subst hyc
      by_cases hxy : (x == y) = true
      · have hxye : x = y := eq_of_beq hxy
        subst hxye
        simp [List.filter, memS, ih]
      · simp [List.filter, memS, hxy, ih]

theorem memS_filter_true {p : String → Bool} (d : String) :
    ∀ l : List String, memS d (l.filter p) = true → p d = true := by
  intro l
  induction l with
  | nil => intro h; simp [memS] at h
  | cons y ys ih =>
    intro h
    by_cases hy : p y = true
    · simp only [List.filter, hy] at h
      by_cases hd : (d == y) = true
      · have : d = y := eq_of_beq hd
        subst this; exact hy
      · exact ih (by simpa [memS, hd] using h)
    · simp only [List.filter, Bool.not_eq_true _ ▸ hy] at h
      · exact ih (by simpa [memS] using h)

/-! ### Claim C5 — classifier totality and priority -/

/-- C5: `classify_error` is total — every error string yields exactly one
of `permanent`, `rate_limit`, `temporary`, matched on the lowercased
text — and the permanent patterns have strict priority: any text
matching a permanent pattern classifies as permanent even when it also
matches a rate-limit pattern. -/
theorem classify_error_total_and_priority (e : String) :
    (classify_error e = "permanent" ∨ classify_error e = "rate_limit" ∨
      classify_error e = "temporary") ∧
    (matchesAny permanentPatterns (strLower e) = true →
      matchesAny rateLimitPatterns (strLower e) = true →
      classify_error e = "permanent") := by
  constructor
  · by_cases h1 : matchesAny permanentPatterns (strLower e) = true
    · exact Or.inl (by simp [classify_error, h1])
    · by_cases h2 : matchesAny rateLimitPatterns (strLower e) = true
      · exact Or.inr (Or.inl (by simp [classify_error, h1, h2]))
      · exact Or.inr (Or.inr (by simp [classify_error, h1, h2]))
  · intro h1 _
    simp [classify_error, h1]

/-- Witness for C5 at a message matching both a permanent and a
rate-limit pattern: permanent wins. -/
theorem classify_error_total_and_priority_witness :
    matchesAny permanentPatterns
      (strLower "Bot was blocked: retry after 5") = true ∧
    matchesAny rateLimitPatterns
      (strLower "Bot was blocked: retry after 5") = true ∧
    classify_error "Bot was blocked: retry after 5" = "permanent" :=
  ⟨by decide, by decide,
    (classify_error_total_and_priority "Bot was blocked: retry after 5").2
      (by decide) (by decide)⟩

/-! ### Claim C3 — the 3-posts × 2-destinations scenario -/

/-- C3: from fresh state, dispatching 3 posts to destinations `A` and
`B` where `B` fails every attempt with a permanent-failure signal: after
one pass all three rows are persisted with `posted = true` and
`successful_posts = 1`, and `B` is in the skip list. -/
theorem scenario_three_posts_two_channels :
    run3.1.map Post.posted = [true, true, true] ∧
    run3.1.map Post.successful_posts = [1, 1, 1] ∧
    should_skip run3.2.1.retry "B" = true := by decide

/-! ### Counterexamples -/

/-- Counterexample to C2 as stated: at posts 0s, 4s and 8s apart with no
tags, each post is within 5 seconds of its immediate predecessor, so the
claimed rule yields the single run `{g1, g2, g3}` — but the code
measures proximity against the first post of the current batch and
splits off `{g3}`. -/
theorem resolver_counterexample :
    ratAbs (g2.scheduled_time - g1.scheduled_time) ≤ 5 ∧
    ratAbs (g3.scheduled_time - g2.scheduled_time) ≤ 5 ∧
    specRuns [g1, g2, g3] = [[g1, g2, g3]] ∧
    (groupBatches [g1, g2, g3]).map Prod.snd = [[g1, g2], [g3]] := by
  refine ⟨by norm_num [g1, g2, ratAbs], by norm_num [g2, g3, ratAbs], ?_, ?_⟩
  · simp only [specRuns, specRunsGo, g1, g2, g3, tagTruthy]
    norm_num [ratAbs]
  · simp only [groupBatches, groupStep, flushGroup, List.foldl, g1, g2, g3,
      tagTruthy]
    norm_num [ratAbs]

/-- Counterexample to C4 as stated: with `B` skip-listed (after one
permanent failure) and every delivery succeeding, the pair `(1, B)` is
never attempted — no event touches `B` — yet it is appended to
`failed_sends`, so it does contribute to the run-wide failure set. -/
theorem skip_counted_as_failure_counterexample :
    should_skip skipBDispatch.retry "B" = true ∧
    run4.2.2.2.any (attemptsOn "B") = false ∧
    run4.2.2.1 = [(1, "B")] := by decide

/-- Counterexample to C6 as stated: a permanent failure for `d` followed
by a rate-limit failure for `d` leaves `d` skip-listed although its most
recent terminal classification is `rate_limit`, not `permanent`. -/
theorem should_skip_last_terminal_counterexample :
    should_skip (runREvs initSmartRetry
      [.fail "d" "bot was blocked" none 0,
       .fail "d" "flood wait" none 1]) "d" = true ∧
    claimSkipPred "d"
      [.fail "d" "bot was blocked" none 0,
       .fail "d" "flood wait" none 1] = false := by decide

/-- Reachability of `cexLimiter`: a flood signal at time 100 followed
by `n ≤ 49` successes at time 110 leaves the limiter degraded at rate
17.5 with the counter at `n`. -/
theorem cexLimiter_reachable_aux (n : Nat) (hn : n ≤ 49) :
    (fun s => report_success s 110)^[n] (report_flood_control initLimiter 100)
      = { cexLimiter with success_count := n } := by
  induction n with
  | zero =>
    simp only [Function.iterate_zero, id]
    simp only [report_flood_control, initLimiter, cexLimiter,
      RATE_LIMIT_GLOBAL, RATE_LIMIT_PER_CHAT]
    norm_num
  | succ m ih =>
    rw [Function.iterate_succ_apply', ih (by omega)]
    have hm : ¬(50 ≤ m + 1) := by omega
    simp [report_success, hm]

/-- The state `cexLimiter` is reachable from the fresh limiter. -/
theorem cexLimiter_reachable :
    (fun s => report_success s 110)^[49] (report_flood_control initLimiter 100)
      = cexLimiter := by
  rw [cexLimiter_reachable_aux 49 (by omega)]
  rfl

/-- Counterexample to C7 as stated: in the degraded state reached by a
flood signal at time 100 and 49 successes, a success at time 160 brings
the counter to 50 with exactly 60 seconds elapsed — "at least 60
seconds" — yet the code (which requires strictly more than 60) neither
recovers the rate nor resets the counter. -/
theorem recovery_at_sixty_seconds_counterexample :
    cexLimiter.flood_detected = true ∧
    cexLimiter.last_flood_time = some 100 ∧
    50 ≤ cexLimiter.success_count + 1 ∧
    (60 : ℚ) ≤ 160 - 100 ∧
    (report_success cexLimiter 160).success_count = 50 ∧
    (report_success cexLimiter 160).current_rate = cexLimiter.current_rate := by
  refine ⟨rfl, rfl, by norm_num [cexLimiter], by norm_num, ?_, ?_⟩ <;>
    · simp [report_success, cexLimiter, floodTimeTruthy]
      norm_num

/-- Counterexample to C9 as stated: `Retry after 30` classifies as
`rate_limit`, but the dispatcher only signals the Governor when the text
contains `flood` or `too many requests`, so the limiter is left
untouched (while the failure is still recorded in the tracker). -/
theorem rate_limit_without_degradation_counterexample :
    classify_error "Retry after 30" = "rate_limit" ∧
    run9.2.1.limiter = initLimiter ∧
    run9.2.1.limiter.flood_detected = false ∧
    run9.2.1.retry.cf_val "A" = 1 := by decide

/-! ### Claim C6 — skip-list membership over event histories -/

theorem should_skip_record_failure (s : SmartRetrySystem)
    (ch d err : String) (pid : Option Nat) (t : ℚ) :
    should_skip (record_failure s ch err pid t) d
      = (if ch == d && classify_error err == "permanent" then true
         else should_skip s d) := by
  by_cases hc : (classify_error err != "temporary") = true
  · by_cases hp : (classify_error err == "permanent") = true
    · by_cases hd : d = ch
      · subst hd
        simp [record_failure, should_skip, hc, hp, memS_addToSet]
      · have h1 : (ch == d) = false := by simp [Ne.symm hd]
        have h2 : (d == ch) = false := by simp [hd]
        simp [record_failure, should_skip, hc, hp, memS_addToSet, h1, h2]
    · have hp' : (classify_error err == "permanent") = false := by
        simpa using hp
      simp [record_failure, should_skip, hc, hp', Bool.and_false]
  · have hc' : (classify_error err != "temporary") = false := by
      simpa using hc
    have hp' : (classify_error err == "permanent") = false := by
      have : classify_error err = "temporary" := by simpa [bne] using hc'
      simp [this]
    simp [record_failure, should_skip, hc', hp', Bool.and_false]

theorem should_skip_record_success (s : SmartRetrySystem) (ch d : String) :
    should_skip (record_success s ch) d
      = (if ch == d then false else should_skip s d) := by
  by_cases hm : memS ch s.skip_list = true
  · by_cases hd : d = ch
    · subst hd
      simp [record_success, should_skip, hm, memS_removeFromSet]
    · have h1 : (ch == d) = false := by simp [Ne.symm hd]
      have h2 : (d != ch) = true := by simp [hd]
      simp [record_success, should_skip, hm, memS_removeFromSet, h1, h2]
  · have hm' : memS ch s.skip_list = false := by simpa using hm
    by_cases hd : d = ch
    · subst hd
      simp [record_success, should_skip, hm']
    · have h1 : (ch == d) = false := by simp [Ne.symm hd]
      simp [record_success, should_skip, hm', h1]

theorem should_skip_runREvs (d : String) (evs : List REv) :
    ∀ s : SmartRetrySystem,
      should_skip (runREvs s evs) d
        = permSinceFrom d (should_skip s d) evs := by
  induction evs with
  | nil => intro s; rfl
  | cons e rest ih =>
    intro s
    cases e with
    | fail ch err pid t =>
      have h1 : runREvs s (.fail ch err pid t :: rest)
          = runREvs (record_failure s ch err pid t) rest := rfl
      rw [h1, ih]
      have h2 : permSinceFrom d (should_skip s d) (.fail ch err pid t :: rest)
          = permSinceFrom d (if ch == d && classify_error err == "permanent"
              then true else should_skip s d) rest := rfl
      rw [h2, should_skip_record_failure]
    | succ ch =>
      have h1 : runREvs s (.succ ch :: rest)
          = runREvs (record_success s ch) rest := rfl
      rw [h1, ih]
      have h2 : permSinceFrom d (should_skip s d) (.succ ch :: rest)
          = permSinceFrom d (if ch == d then false else should_skip s d)
              rest := rfl
      rw [h2, should_skip_record_success]

/-- C6 amended: after any event history from the fresh tracker,
`should_skip d` holds exactly when a permanent-classified failure has
been recorded for `d` and no success for `d` has been recorded since it
(the counterexample above shows the original "most recent terminal
classification was permanent" is too strong: a later rate-limit
classification does not clear skip-list membership). -/
theorem should_skip_iff_permanent_since (d : String) (evs : List REv) :
    should_skip (runREvs initSmartRetry evs) d = permSince d evs := by
  have h := should_skip_runREvs d evs initSmartRetry
  have h0 : should_skip initSmartRetry d = false := rfl
  rw [h0] at h
  exact h

/-! ### Claim C10 — skip-listed destinations are never healthy -/

theorem record_failure_skip_list (s : SmartRetrySystem) (ch err : String)
    (pid : Option Nat) (t : ℚ) :
    (record_failure s ch err pid t).skip_list
      = (if classify_error err == "permanent" then addToSet s.skip_list ch
         else s.skip_list) := by
  by_cases hp : (classify_error err == "permanent") = true
  · by_cases hc : (classify_error err != "temporary") = true
    · simp [record_failure, hp, hc]
    · have hc' : (classify_error err != "temporary") = false := by
        simpa using hc
      simp [record_failure, hp, hc']
  · have hp' : (classify_error err == "permanent") = false := by simpa using hp
    by_cases hc : (classify_error err != "temporary") = true
    · simp [record_failure, hp', hc]
    · have hc' : (classify_error err != "temporary") = false := by
        simpa using hc
      simp [record_failure, hp', hc']

theorem record_failure_cf_val (s : SmartRetrySystem) (ch err : String)
    (pid : Option Nat) (t : ℚ) (x : String) :
    (record_failure s ch err pid t).cf_val x
      = (if (classify_error err != "temporary") && (x == ch) then
           s.cf_val ch + 1
         else s.cf_val x) := by
  by_cases hc : (classify_error err != "temporary") = true
  · by_cases hp : (classify_error err == "permanent") = true
    · by_cases hxe : x = ch
      · subst hxe; simp [record_failure, hc, hp]
      · simp [record_failure, hc, hp, hxe]
    · have hp' : (classify_error err == "permanent") = false := by
        simpa using hp
      by_cases hxe : x = ch
      · subst hxe; simp [record_failure, hc, hp']
      · simp [record_failure, hc, hp', hxe]
  · have hc' : (classify_error err != "temporary") = false := by simpa using hc
    have hp' : (classify_error err == "permanent") = false := by
      have ht : classify_error err = "temporary" := by simpa [bne] using hc'
      simp [ht]
    simp [record_failure, hc', hp']

theorem inv_record_failure (s : SmartRetrySystem) (ch err : String)
    (pid : Option Nat) (t : ℚ)
    (h : ∀ x, memS x s.skip_list = true → 1 ≤ s.cf_val x) :
    ∀ x, memS x (record_failure s ch err pid t).skip_list = true →
      1 ≤ (record_failure s ch err pid t).cf_val x := by
  intro x hx
  rw [record_failure_skip_list] at hx
  rw [record_failure_cf_val]
  by_cases hxe : x = ch
  · subst hxe
    by_cases hc : (classify_error err != "temporary") = true
    · simp only [hc, Bool.true_and, beq_self_eq_true, if_true, if_pos]
      omega
    · have hc' : (classify_error err != "temporary") = false := by
        simpa using hc
      have hp' : (classify_error err == "permanent") = false := by
        have ht : classify_error err = "temporary" := by simpa [bne] using hc'
        simp [ht]
      simp only [hc', Bool.false_and, Bool.false_eq_true, if_false]
      simp only [hp', Bool.false_eq_true, if_false] at hx
      exact h x hx
  · have hxch : (x == ch) = false := by simp [hxe]
    have hxs : memS x s.skip_list = true := by
      by_cases hp : (classify_error err == "permanent") = true
      · simpa [hp, memS_addToSet, hxch] using hx
      · have hp' : (classify_error err == "permanent") = false := by
          simpa using hp
        simpa [hp'] using hx
    simp only [hxch, Bool.and_false, Bool.false_eq_true, if_false]
    exact h x hxs

theorem inv_record_success (s : SmartRetrySystem) (ch : String)
    (h : ∀ x, memS x s.skip_list = true → 1 ≤ s.cf_val x) :
    ∀ x, memS x (record_success s ch).skip_list = true →
      1 ≤ (record_success s ch).cf_val x := by
  intro x hx
  have hsk : (record_success s ch).skip_list
      = (if memS ch s.skip_list then removeFromSet s.skip_list ch
         else s.skip_list) := rfl
  have hcf : (record_success s ch).cf_val x
      = (if x == ch then 0 else s.cf_val x) := rfl
  rw [hsk] at hx
  rw [hcf]
  by_cases hxe : x = ch
  · exfalso
    subst hxe
    by_cases hm : memS x s.skip_list = true
    · simp [hm, memS_removeFromSet] at hx
    · have hm' : memS x s.skip_list = false := by simpa using hm
      simp [hm'] at hx
  · have hxch : (x == ch) = false := by simp [hxe]
    have hxs : memS x s.skip_list = true := by
      by_cases hm : memS ch s.skip_list = true
      · have hbne : (x != ch) = true := by simp [bne, hxch]
        simpa [hm, memS_removeFromSet, hbne] using hx
      · have hm' : memS ch s.skip_list = false := by simpa using hm
        simpa [hm'] using hx
    rw [if_neg (by simp [hxe])]
    exact h x hxs

theorem runREvs_inv (evs : List REv) :
    ∀ s : SmartRetrySystem,
      (∀ x, memS x s.skip_list = true → 1 ≤ s.cf_val x) →
      ∀ x, memS x (runREvs s evs).skip_list = true →
        1 ≤ (runREvs s evs).cf_val x := by
  induction evs with
  | nil => intro s h; exact h
  | cons e rest ih =>
    intro s h
    cases e with
    | fail ch err pid t => exact ih _ (inv_record_failure s ch err pid t h)
    | succ ch => exact ih _ (inv_record_success s ch h)

/-- C10: in every tracker state reachable from fresh by
`record_failure`/`record_success` events, a skip-listed destination has
a consecutive-failure count of at least 1, and `get_health_report`
never lists it among the healthy destinations. -/
theorem skip_listed_never_healthy (evs : List REv) (d : String)
    (h : memS d (runREvs initSmartRetry evs).skip_list = true) :
    1 ≤ (runREvs initSmartRetry evs).cf_val d ∧
    memS d (get_health_report (runREvs initSmartRetry evs)).healthy
      = false := by
  have hinv := runREvs_inv evs initSmartRetry
    (by intro x hx; simp [initSmartRetry, memS] at hx) d h
  refine ⟨hinv, ?_⟩
  by_contra hmem
  have hmem' : memS d ((runREvs initSmartRetry evs).cf_keys.filter
      (fun k => (runREvs initSmartRetry evs).cf_val k == 0)) = true := by
    have : memS d (get_health_report (runREvs initSmartRetry evs)).healthy
        = true := by
      cases hb : memS d (get_health_report (runREvs initSmartRetry evs)).healthy
      · exact absurd hb hmem
      · rfl
    simpa [get_health_report] using this
  have hz := memS_filter_true d _ hmem'
  have h0 : (runREvs initSmartRetry evs).cf_val d = 0 := by simpa using hz
  omega

/-- Witness for C10 after one permanent failure for `d`. -/
theorem skip_listed_never_healthy_witness :
    1 ≤ (runREvs initSmartRetry [.fail "d" "chat not found" none 0]).cf_val "d" ∧
    memS "d" (get_health_report
      (runREvs initSmartRetry [.fail "d" "chat not found" none 0])).healthy
      = false :=
  skip_listed_never_healthy [.fail "d" "chat not found" none 0] "d" (by decide)

/-! ### Claim C7 — governor adaptive control (amended: recovery requires
strictly more than 60 seconds since the last flood signal) -/

/-- C7 amended: on each rate-limit signal `current_rate` becomes
`max(current_rate * 0.7, 10)` and degraded mode is set; on a success
that brings the counter to 50 when strictly *more* than 60 seconds have
passed since the last flood signal, `current_rate` becomes
`min(current_rate * 1.1, base ceiling)`, the counter resets to 0, and
degraded mode is cleared exactly when the recovered rate reaches the
ceiling. -/
theorem governor_adaptive_control (s : AdaptiveRateLimiter) (now t : ℚ)
    (hf : s.flood_detected = true) (hlt : s.last_flood_time = some t)
    (ht0 : t ≠ 0) (hcnt : 50 ≤ s.success_count + 1)
    (helapsed : 60 < now - t) :
    ((report_flood_control s now).current_rate
        = max (s.current_rate * (7 / 10)) 10 ∧
     (report_flood_control s now).flood_detected = true) ∧
    ((report_success s now).current_rate
        = min (s.current_rate * (11 / 10)) s.base_global_rate ∧
     (report_success s now).success_count = 0 ∧
     ((report_success s now).flood_detected = false ↔
        s.base_global_rate
          ≤ min (s.current_rate * (11 / 10)) s.base_global_rate)) := by
  refine ⟨⟨rfl, rfl⟩, ?_⟩
  have h1 : (t == 0) = false := by simpa using ht0
  by_cases hr : s.base_global_rate
      ≤ min (s.current_rate * (11 / 10)) s.base_global_rate
  · simp [report_success, hf, hlt, floodTimeTruthy, h1, hcnt, helapsed, hr]
  · simp [report_success, hf, hlt, floodTimeTruthy, h1, hcnt, helapsed, hr]

/-- Witness for C7 in the reachable degraded state `cexLimiter`, with a
flood signal at time 100 and a success at time 161. -/
theorem governor_adaptive_control_witness :
    ((report_flood_control cexLimiter 161).current_rate
        = max (cexLimiter.current_rate * (7 / 10)) 10 ∧
     (report_flood_control cexLimiter 161).flood_detected = true) ∧
    ((report_success cexLimiter 161).current_rate
        = min (cexLimiter.current_rate * (11 / 10))
            cexLimiter.base_global_rate ∧
     (report_success cexLimiter 161).success_count = 0 ∧
     ((report_success cexLimiter 161).flood_detected = false ↔
        cexLimiter.base_global_rate
          ≤ min (cexLimiter.current_rate * (11 / 10))
              cexLimiter.base_global_rate)) :=
  governor_adaptive_control cexLimiter 161 100 rfl rfl (by norm_num)
    (by norm_num [cexLimiter]) (by norm_num)

/-! ### Claim C8 — token balances stay within `[0, capacity]` -/

theorem acquire_global_tokens_bounds (tokens rate e : ℚ)
    (h0 : 0 ≤ tokens) (he : 0 ≤ e) (hr : 0 < rate) :
    0 ≤ (acquire_global_tokens tokens rate e).1 ∧
      (acquire_global_tokens tokens rate e).1 ≤ BURST_ALLOWANCE := by
  have hmul : 0 ≤ e * rate := mul_nonneg he hr.le
  have hB : (0:ℚ) ≤ BURST_ALLOWANCE := by norm_num [BURST_ALLOWANCE]
  unfold acquire_global_tokens
  dsimp only
  split_ifs with h1 h2 h2 <;> constructor <;> simp only [] <;> linarith

theorem acquire_chat_tokens_bounds (tokens pcr e : ℚ)
    (h0 : 0 ≤ tokens) (he : 0 ≤ e) (hr : 0 < pcr) :
    0 ≤ (acquire_chat_tokens tokens pcr e).1 ∧
      (acquire_chat_tokens tokens pcr e).1 ≤ pcr := by
  have hrr : 0 < pcr / 60 := by positivity
  have hmul : 0 ≤ e * (pcr / 60) := mul_nonneg he hrr.le
  unfold acquire_chat_tokens
  dsimp only
  split_ifs with h1 h2 h2 <;> constructor <;> simp only [] <;> linarith

theorem runGlobalBucket_bounds (rate : ℚ) (hr : 0 < rate) :
    ∀ (els : List ℚ) (t0 : ℚ), 0 ≤ t0 → (∀ e ∈ els, 0 ≤ e) →
      ∀ b ∈ runGlobalBucket t0 rate els, 0 ≤ b ∧ b ≤ BURST_ALLOWANCE := by
  intro els
  induction els with
  | nil => intro t0 _ _ b hb; simp [runGlobalBucket] at hb
  | cons e es ih =>
    intro t0 h0 hall b hb
    have hstep := acquire_global_tokens_bounds t0 rate e h0
      (hall e (List.mem_cons_self e es)) hr
    rw [runGlobalBucket] at hb
    rcases List.mem_cons.mp hb with hbt | hbr
    · rw [hbt]; exact hstep
    · exact ih _ hstep.1 (fun x hx => hall x (List.mem_cons_of_mem e hx)) b hbr

theorem runChatBucket_bounds (pcr : ℚ) (hr : 0 < pcr) :
    ∀ (fls : List ℚ) (u0 : ℚ), 0 ≤ u0 → (∀ e ∈ fls, 0 ≤ e) →
      ∀ b ∈ runChatBucket u0 pcr fls, 0 ≤ b ∧ b ≤ pcr := by
  intro fls
  induction fls with
  | nil => intro u0 _ _ b hb; simp [runChatBucket] at hb
  | cons e es ih =>
    intro u0 h0 hall b hb
    have hstep := acquire_chat_tokens_bounds u0 pcr e h0
      (hall e (List.mem_cons_self e es)) hr
    rw [runChatBucket] at hb
    rcases List.mem_cons.mp hb with hbt | hbr
    · rw [hbt]; exact hstep
    · exact ih _ hstep.1 (fun x hx => hall x (List.mem_cons_of_mem e hx)) b hbr

/-- C8: over any sequence of `acquire` operations with nonnegative
elapsed times and a positive rate, every successive balance of the
global bucket stays in `[0, BURST_ALLOWANCE]` and every successive
balance of a per-chat bucket stays in `[0, per_chat_rate]` — never
negative: the refill is capped at the capacity, a balance of at least
one token is decremented by one, and a balance below one token is set
to exactly zero after the computed wait. -/
theorem bucket_balance_invariant (rate pcr t0 u0 : ℚ)
    (els fls : List ℚ) (hr : 0 < rate) (hpcr : 0 < pcr)
    (ht0 : 0 ≤ t0) (hu0 : 0 ≤ u0)
    (hels : ∀ e ∈ els, 0 ≤ e) (hfls : ∀ e ∈ fls, 0 ≤ e) :
    (∀ b ∈ runGlobalBucket t0 rate els, 0 ≤ b ∧ b ≤ BURST_ALLOWANCE) ∧
    (∀ b ∈ runChatBucket u0 pcr fls, 0 ≤ b ∧ b ≤ pcr) :=
  ⟨runGlobalBucket_bounds rate hr els t0 ht0 hels,
   runChatBucket_bounds pcr hpcr fls u0 hu0 hfls⟩

/-- Witness for C8: fresh buckets at the module rates, a burst of three
global acquires and one chat acquire. -/
theorem bucket_balance_invariant_witness :
    (∀ b ∈ runGlobalBucket BURST_ALLOWANCE RATE_LIMIT_GLOBAL [0, 1, 2],
      0 ≤ b ∧ b ≤ BURST_ALLOWANCE) ∧
    (∀ b ∈ runChatBucket RATE_LIMIT_PER_CHAT RATE_LIMIT_PER_CHAT [1],
      0 ≤ b ∧ b ≤ RATE_LIMIT_PER_CHAT) :=
  bucket_balance_invariant RATE_LIMIT_GLOBAL RATE_LIMIT_PER_CHAT
    BURST_ALLOWANCE RATE_LIMIT_PER_CHAT [0, 1, 2] [1]
    (by norm_num [RATE_LIMIT_GLOBAL]) (by norm_num [RATE_LIMIT_PER_CHAT])
    (by norm_num [BURST_ALLOWANCE]) (by norm_num [RATE_LIMIT_PER_CHAT])
    (by intro e he; simp at he; rcases he with h | h | h <;> norm_num [h])
    (by intro e he; simp at he; norm_num [he])

/-! ### Claim C9 — failure recording and governor degradation -/

/-- C9 amended: every failed delivery attempt is classified and recorded
through `record_failure`, and the Governor is flood-signalled exactly
when the lowercased error text contains `flood` or `too many requests`;
in particular a `retry after` error classifies as `rate_limit` without
degrading the Governor (see the counterexample above). -/
theorem failure_recorded_governor_on_flood
    (deliver : String → Nat → Option String) (now : ℚ)
    (st : DispatchState) (post : Post) (ch e : String)
    (hskip : should_skip st.retry ch = false)
    (hd : deliver ch post.id = some e) :
    (send_post_to_channel deliver now st post ch).2.1.retry
      = record_failure st.retry ch e (some post.id) now ∧
    ((strContains (strLower e) "flood"
        || strContains (strLower e) "too many requests") = true →
      (send_post_to_channel deliver now st post ch).2.1.limiter
        = report_flood_control st.limiter now) ∧
    ((strContains (strLower e) "flood"
        || strContains (strLower e) "too many requests") = false →
      (send_post_to_channel deliver now st post ch).2.1.limiter
        = st.limiter) := by
  by_cases hfl : (strContains (strLower e) "flood"
      || strContains (strLower e) "too many requests") = true
  · simp [send_post_to_channel, hskip, hd, hfl]
  · have hfl' : (strContains (strLower e) "flood"
        || strContains (strLower e) "too many requests") = false := by
      simpa using hfl
    simp [send_post_to_channel, hskip, hd, hfl']

/-- Witness for C9 at a flood-text failure from fresh state: the
failure is recorded and the Governor is degraded. -/
theorem failure_recorded_governor_on_flood_witness :
    (send_post_to_channel deliverFlood 0 freshDispatch
        ⟨1, "m1", false, 0, 0, none⟩ "A").2.1.retry
      = record_failure freshDispatch.retry "A" "Flood control exceeded"
          (some 1) 0 ∧
    ((strContains (strLower "Flood control exceeded") "flood"
        || strContains (strLower "Flood control exceeded")
            "too many requests") = true →
      (send_post_to_channel deliverFlood 0 freshDispatch
          ⟨1, "m1", false, 0, 0, none⟩ "A").2.1.limiter
        = report_flood_control freshDispatch.limiter 0) ∧
    ((strContains (strLower "Flood control exceeded") "flood"
        || strContains (strLower "Flood control exceeded")
            "too many requests") = false →
      (send_post_to_channel deliverFlood 0 freshDispatch
          ⟨1, "m1", false, 0, 0, none⟩ "A").2.1.limiter
        = freshDispatch.limiter) :=
  failure_recorded_governor_on_flood deliverFlood 0 freshDispatch
    ⟨1, "m1", false, 0, 0, none⟩ "A" "Flood control exceeded"
    (by decide) rfl

/-! ### Claim C2 — batch grouping (amended: anchored at the run's first
post) -/

theorem groupFold_anchor (rest : List Post) :
    ∀ (acc : List (ℚ × List Post)) (run : List Post) (t : ℚ)
      (tag : Option String), run ≠ [] →
      (flushGroup (rest.foldl groupStep ⟨acc, run, some t, tag⟩)).map
          Prod.snd
        = acc.map Prod.snd ++ anchorGo t tag run rest := by
  induction rest with
  | nil =>
    intro acc run t tag hrun
    simp [flushGroup, anchorGo, hrun]
  | cons q rest ih =>
    intro acc run t tag hrun
    have hfold : (q :: rest).foldl groupStep ⟨acc, run, some t, tag⟩
        = rest.foldl groupStep (groupStep ⟨acc, run, some t, tag⟩ q) := rfl
    rw [hfold]
    by_cases h1 : (tagTruthy q.batch_id && q.batch_id == tag) = true
    · have hstep : groupStep ⟨acc, run, some t, tag⟩ q
          = ⟨acc, run ++ [q], some t, tag⟩ := by
        simp [groupStep, h1]
      rw [hstep, ih acc (run ++ [q]) t tag (by simp)]
      have hgo : anchorGo t tag run (q :: rest)
          = anchorGo t tag (run ++ [q]) rest := by
        simp [anchorGo, h1]
      rw [hgo]
    · have h1' : (tagTruthy q.batch_id && q.batch_id == tag) = false := by
        simpa using h1
      by_cases h2 : ratAbs (q.scheduled_time - t) ≤ 5
      · have hstep : groupStep ⟨acc, run, some t, tag⟩ q
            = ⟨acc, run ++ [q], some t, tag⟩ := by
          simp [groupStep, h1', h2]
        rw [hstep, ih acc (run ++ [q]) t tag (by simp)]
        have hgo : anchorGo t tag run (q :: rest)
            = anchorGo t tag (run ++ [q]) rest := by
          simp [anchorGo, h1', h2]
        rw [hgo]
      · have hstep : groupStep ⟨acc, run, some t, tag⟩ q
            = ⟨acc ++ [(t, run)], [q], some q.scheduled_time,
               q.batch_id⟩ := by
          simp [groupStep, h1', h2]
        rw [hstep,
          ih (acc ++ [(t, run)]) [q] q.scheduled_time q.batch_id (by simp)]
        have hgo : anchorGo t tag run (q :: rest)
            = run :: anchorGo q.scheduled_time q.batch_id [q] rest := by
          simp [anchorGo, h1', h2]
        rw [hgo]
        simp

/-- C2 amended: the resolver partitions the ordered due posts into
maximal runs where a run continues exactly when the next post carries
the (truthy) batch tag of the run's *first* post, or — failing that —
its scheduled time lies within 5 seconds of the run's *first* post (the
tag test takes precedence); the counterexample above shows the
original "immediately preceding post" reading is wrong.  The worked
example T, T+2s, T+4s, T+30s still yields the runs
`{T, T+2, T+4}` and `{T+30}`. -/
theorem resolver_groups_by_run_anchor :
    (∀ posts : List Post,
      (groupBatches posts).map Prod.snd = anchorRuns posts) ∧
    (groupBatches [e1, e2, e3, e4]).map Prod.snd
      = [[e1, e2, e3], [e4]] := by
  have hall : ∀ posts : List Post,
      (groupBatches posts).map Prod.snd = anchorRuns posts := by
    intro posts
    cases posts with
    | nil => rfl
    | cons p rest =>
      have hfirst : groupStep ⟨[], [], none, none⟩ p
          = ⟨[], [p], some p.scheduled_time, p.batch_id⟩ := rfl
      have hfold : (p :: rest).foldl groupStep ⟨[], [], none, none⟩
          = rest.foldl groupStep ⟨[], [p], some p.scheduled_time,
              p.batch_id⟩ := by
        rw [List.foldl_cons, hfirst]
      rw [groupBatches, hfold,
        groupFold_anchor rest [] [p] p.scheduled_time p.batch_id (by simp)]
      rfl
  refine ⟨hall, ?_⟩
  rw [hall [e1, e2, e3, e4]]
  simp only [anchorRuns, anchorGo, e1, e2, e3, e4, tagTruthy]
  norm_num [ratAbs]

/-! ### Claim C1 — trace lemmas for the dispatch loop -/

theorem countMark_append (pid : Nat) (l1 l2 : List Ev) :
    countMark pid (l1 ++ l2) = countMark pid l1 + countMark pid l2 := by
  induction l1 with
  | nil => simp [countMark]
  | cons e tr ih =>
    simp only [List.cons_append, countMark, List.append_eq, ih]
    omega

theorem send_post_no_mark (deliver : String → Nat → Option String)
    (now : ℚ) (st : DispatchState) (post : Post) (ch : String)
    (pid : Nat) :
    countMark pid (send_post_to_channel deliver now st post ch).2.2 = 0 := by
  by_cases hsk : should_skip st.retry ch = true
  · simp [send_post_to_channel, hsk, countMark]
  · have hsk' : should_skip st.retry ch = false := by simpa using hsk
    cases hdel : deliver ch post.id <;>
      simp [send_post_to_channel, hsk', hdel, countMark]

theorem sendResults_trace_eq (deliver : String → Nat → Option String)
    (now : ℚ) (st : DispatchState) (post : Post) (ch : String)
    (rest : List String) :
    (sendResults deliver now st post (ch :: rest)).2.2
      = (send_post_to_channel deliver now st post ch).2.2
        ++ (sendResults deliver now
              (send_post_to_channel deliver now st post ch).2.1 post
              rest).2.2 := rfl

theorem sendResults_no_mark (deliver : String → Nat → Option String)
    (now : ℚ) (post : Post) (pid : Nat) :
    ∀ (channels : List String) (st : DispatchState),
      countMark pid (sendResults deliver now st post channels).2.2 = 0 := by
  intro channels
  induction channels with
  | nil => intro st; simp [sendResults, countMark]
  | cons ch rest ih =>
    intro st
    rw [sendResults_trace_eq, countMark_append, send_post_no_mark, ih]

theorem send_post_resolves (deliver : String → Nat → Option String)
    (now : ℚ) (st : DispatchState) (post : Post) (ch : String) :
    ((send_post_to_channel deliver now st post ch).2.2).any
      (resolvesPair ch post.id) = true := by
  by_cases hsk : should_skip st.retry ch = true
  · simp [send_post_to_channel, hsk, resolvesPair]
  · have hsk' : should_skip st.retry ch = false := by simpa using hsk
    cases hdel : deliver ch post.id <;>
      simp [send_post_to_channel, hsk', hdel, resolvesPair]

theorem sendResults_resolves (deliver : String → Nat → Option String)
    (now : ℚ) (post : Post) :
    ∀ (channels : List String) (st : DispatchState) (c : String),
      c ∈ channels →
      ((sendResults deliver now st post channels).2.2).any
        (resolvesPair c post.id) = true := by
  intro channels
  induction channels with
  | nil => intro st c hc; cases hc
  | cons ch rest ih =>
    intro st c hc
    rw [sendResults_trace_eq, List.any_append]
    rcases List.mem_cons.mp hc with hceq | hcr
    · subst hceq
      rw [send_post_resolves]
      simp
    · rw [ih _ c hcr]
      simp

theorem sendBatchLoop_trace_eq (deliver : String → Nat → Option String)
    (now : ℚ) (channels : List String) (st : DispatchState) (p : Post)
    (rest : List Post) :
    (sendBatchLoop deliver now channels st (p :: rest)).2.2.2
      = (sendResults deliver now st p channels).2.2
        ++ .mark p.id :: (sendBatchLoop deliver now channels
              (sendResults deliver now st p channels).2.1 rest).2.2.2 := rfl

theorem sendBatchLoop_fails_eq (deliver : String → Nat → Option String)
    (now : ℚ) (channels : List String) (st : DispatchState) (p : Post)
    (rest : List Post) :
    (sendBatchLoop deliver now channels st (p :: rest)).2.2.1
      = failedOf p.id channels (sendResults deliver now st p channels).1
        ++ (sendBatchLoop deliver now channels
              (sendResults deliver now st p channels).2.1 rest).2.2.1 := rfl

theorem sendBatchLoop_posts_eq (deliver : String → Nat → Option String)
    (now : ℚ) (channels : List String) (st : DispatchState) (p : Post)
    (rest : List Post) :
    (sendBatchLoop deliver now channels st (p :: rest)).1
      = { p with
          posted := true
          successful_posts :=
            countTrue (sendResults deliver now st p channels).1 }
        :: (sendBatchLoop deliver now channels
              (sendResults deliver now st p channels).2.1 rest).1 := rfl

theorem sendBatchLoop_no_alien_marks
    (deliver : String → Nat → Option String) (now : ℚ)
    (channels : List String) (pid : Nat) :
    ∀ (posts : List Post) (st : DispatchState),
      pid ∉ posts.map Post.id →
      countMark pid (sendBatchLoop deliver now channels st posts).2.2.2
        = 0 := by
  intro posts
  induction posts with
  | nil => intro st _; simp [sendBatchLoop, countMark]
  | cons p rest ih =>
    intro st hpid
    rw [List.map_cons] at hpid
    have hne : ¬(p.id = pid) := fun he => hpid (by simp [he])
    have hrest : pid ∉ rest.map Post.id :=
      fun hmem => hpid (List.mem_cons_of_mem _ hmem)
    rw [sendBatchLoop_trace_eq, countMark_append, sendResults_no_mark]
    simp only [countMark, hne, if_false, ih _ hrest]

theorem retryLoop_no_mark (deliver : String → Nat → Option String)
    (now : ℚ) (rows : List Post) (pid : Nat) :
    ∀ (fails : List (Nat × String)) (st : DispatchState),
      countMark pid (retryLoop deliver now rows st fails).2 = 0 := by
  intro fails
  induction fails with
  | nil => intro st; simp [retryLoop, countMark]
  | cons f rest ih =>
    intro st
    rcases f with ⟨fpid, fch⟩
    cases hfind : rows.find? (fun p => p.id == fpid) with
    | some post =>
      simp only [retryLoop, hfind, countMark_append, send_post_no_mark,
        ih, Nat.add_zero]
    | none =>
      simp only [retryLoop, hfind, ih]

theorem sendBatchLoop_posts_out (deliver : String → Nat → Option String)
    (now : ℚ) (channels : List String) :
    ∀ (posts : List Post) (st : DispatchState),
      (sendBatchLoop deliver now channels st posts).1.map Post.id
          = posts.map Post.id ∧
      ∀ p' ∈ (sendBatchLoop deliver now channels st posts).1,
        p'.posted = true := by
  intro posts
  induction posts with
  | nil => intro st; exact ⟨rfl, by intro p' hp'; cases hp'⟩
  | cons p rest ih =>
    intro st
    rw [sendBatchLoop_posts_eq]
    constructor
    · simp only [List.map_cons, (ih _).1]
    · intro p' hp'
      rcases List.mem_cons.mp hp' with hpe | hpr
      · rw [hpe]
      · exact (ih _).2 p' hpr

theorem sendBatchLoop_mark_split (deliver : String → Nat → Option String)
    (now : ℚ) (channels : List String) :
    ∀ (posts : List Post) (st : DispatchState),
      (posts.map Post.id).Nodup →
      ∀ p ∈ posts, ∃ l1 l2,
        (sendBatchLoop deliver now channels st posts).2.2.2
            = l1 ++ .mark p.id :: l2 ∧
        countMark p.id l1 = 0 ∧ countMark p.id l2 = 0 ∧
        ∀ c ∈ channels, l1.any (resolvesPair c p.id) = true := by
  intro posts
  induction posts with
  | nil => intro st _ p hp; cases hp
  | cons q rest ih =>
    intro st hnd p hp
    rw [List.map_cons, List.nodup_cons] at hnd
    obtain ⟨hqnot, hndrest⟩ := hnd
    rcases List.mem_cons.mp hp with hpe | hpr
    · subst hpe
      refine ⟨(sendResults deliver now st p channels).2.2,
        (sendBatchLoop deliver now channels
          (sendResults deliver now st p channels).2.1 rest).2.2.2,
        sendBatchLoop_trace_eq deliver now channels st p rest, ?_, ?_, ?_⟩
      · exact sendResults_no_mark deliver now p p.id channels st
      · exact sendBatchLoop_no_alien_marks deliver now channels p.id rest
          (sendResults deliver now st p channels).2.1 hqnot
      · intro c hc
        exact sendResults_resolves deliver now p channels st c hc
    · obtain ⟨l1, l2, heq, h1, h2, h3⟩ :=
        ih (sendResults deliver now st q channels).2.1 hndrest p hpr
      refine ⟨(sendResults deliver now st q channels).2.2
            ++ .mark q.id :: l1, l2, ?_, ?_, h2, ?_⟩
      · rw [sendBatchLoop_trace_eq, heq]
        simp [List.append_assoc]
      · have hne : ¬(q.id = p.id) := by
          intro he
          exact hqnot (he ▸ (List.mem_map.mpr ⟨p, hpr, rfl⟩))
        rw [countMark_append]
        simp only [countMark, hne, if_false, h1,
          sendResults_no_mark deliver now q p.id channels st]
      · intro c hc
        rw [List.any_append]
        simp [List.any_cons, resolvesPair, h3 c hc]

/-- C1: in a dispatch pass (emergency stop clear) over posts with
distinct ids, none yet delivered, every post row comes out with
`posted = true` with its id preserved — the delivered flag transitions
false→true — and the event trace contains exactly one `mark` (the
`UPDATE posts SET posted = 1` persistence) per post, preceded by a
resolution of that post against every channel of the fan-out list: a
delivery call or the skip fast path for each (post, channel) pair.
The retry pass never emits a `mark`. -/
theorem delivered_once_after_all_attempts
    (deliver : String → Nat → Option String) (now : ℚ)
    (st : DispatchState) (channel_ids : List String) (posts : List Post)
    (hstop : st.emergency_stopped = false)
    (hnd : (posts.map Post.id).Nodup)
    (hposted : ∀ p ∈ posts, p.posted = false) :
    ((send_batch_to_all_channels deliver now st channel_ids posts).1.map
        Post.id = posts.map Post.id) ∧
    (∀ p' ∈ (send_batch_to_all_channels deliver now st channel_ids
        posts).1, p'.posted = true) ∧
    (∀ p ∈ posts, ∃ l1 l2,
      (send_batch_to_all_channels deliver now st channel_ids posts).2.2.2
          = l1 ++ .mark p.id :: l2 ∧
      countMark p.id l1 = 0 ∧ countMark p.id l2 = 0 ∧
      ∀ c ∈ channel_ids, l1.any (resolvesPair c p.id) = true) := by
  have hout := sendBatchLoop_posts_out deliver now channel_ids posts st
  by_cases hfq : (sendBatchLoop deliver now channel_ids st posts).2.2.1 = []
  · have hkey : send_batch_to_all_channels deliver now st channel_ids posts
        = sendBatchLoop deliver now channel_ids st posts := by
      unfold send_batch_to_all_channels
      rw [if_neg (by simp [hstop])]
      simp only [ne_eq, hfq, not_true_eq_false, if_false]
      rw [← hfq]
    rw [hkey]
    exact ⟨hout.1, hout.2,
      sendBatchLoop_mark_split deliver now channel_ids posts st hnd⟩
  · have hkey1 : (send_batch_to_all_channels deliver now st channel_ids
        posts).1 = (sendBatchLoop deliver now channel_ids st posts).1 := by
      unfold send_batch_to_all_channels
      rw [if_neg (by simp [hstop])]
      simp only [ne_eq, hfq, not_false_eq_true, if_true]
    have hkey4 : (send_batch_to_all_channels deliver now st channel_ids
        posts).2.2.2
        = (sendBatchLoop deliver now channel_ids st posts).2.2.2
          ++ (retryLoop deliver now
              (sendBatchLoop deliver now channel_ids st posts).1
              (sendBatchLoop deliver now channel_ids st posts).2.1
              (sendBatchLoop deliver now channel_ids st posts).2.2.1).2 := by
      unfold send_batch_to_all_channels
      rw [if_neg (by simp [hstop])]
      simp only [ne_eq, hfq, not_false_eq_true, if_true]
    rw [hkey1, hkey4]
    refine ⟨hout.1, hout.2, ?_⟩
    intro p hp
    obtain ⟨l1, l2, heq, h1, h2, h3⟩ :=
      sendBatchLoop_mark_split deliver now channel_ids posts st hnd p hp
    refine ⟨l1, l2 ++ (retryLoop deliver now
        (sendBatchLoop deliver now channel_ids st posts).1
        (sendBatchLoop deliver now channel_ids st posts).2.1
        (sendBatchLoop deliver now channel_ids st posts).2.2.1).2,
      ?_, h1, ?_, h3⟩
    · rw [heq]
      simp [List.append_assoc]
    · rw [countMark_append, h2, retryLoop_no_mark]

/-! ### Claim C4 — skip-listed destinations: never attempted, still
counted into `failed_sends` -/

theorem send_post_skip_invariant (deliver : String → Nat → Option String)
    (now : ℚ) (st : DispatchState) (post : Post) (ch c : String)
    (hc : should_skip st.retry c = true) :
    should_skip (send_post_to_channel deliver now st post ch).2.1.retry c
        = true ∧
    ((send_post_to_channel deliver now st post ch).2.2).any (attemptsOn c)
        = false := by
  by_cases hsk : should_skip st.retry ch = true
  · constructor
    · simpa [send_post_to_channel, hsk] using hc
    · simp [send_post_to_channel, hsk, attemptsOn]
  · have hsk' : should_skip st.retry ch = false := by simpa using hsk
    have hne : ch ≠ c := by
      intro he
      rw [he, hc] at hsk'
      cases hsk'
    have hnec : (ch == c) = false := by simp [hne]
    cases hdel : deliver ch post.id with
    | none =>
      constructor
      · have hretry : (send_post_to_channel deliver now st post ch).2.1.retry
            = record_success st.retry ch := by
          simp [send_post_to_channel, hsk', hdel]
        rw [hretry, should_skip_record_success, hnec]
        simpa using hc
      · simp [send_post_to_channel, hsk', hdel, attemptsOn, hnec]
    | some e =>
      constructor
      · have hretry : (send_post_to_channel deliver now st post ch).2.1.retry
            = record_failure st.retry ch e (some post.id) now := by
          simp [send_post_to_channel, hsk', hdel]
        rw [hretry, should_skip_record_failure, hnec]
        simpa using hc
      · simp [send_post_to_channel, hsk', hdel, attemptsOn, hnec]

theorem sendResults_state_eq (deliver : String → Nat → Option String)
    (now : ℚ) (st : DispatchState) (post : Post) (ch : String)
    (rest : List String) :
    (sendResults deliver now st post (ch :: rest)).2.1
      = (sendResults deliver now
          (send_post_to_channel deliver now st post ch).2.1 post
          rest).2.1 := rfl

theorem sendResults_results_eq (deliver : String → Nat → Option String)
    (now : ℚ) (st : DispatchState) (post : Post) (ch : String)
    (rest : List String) :
    (sendResults deliver now st post (ch :: rest)).1
      = (send_post_to_channel deliver now st post ch).1
        :: (sendResults deliver now
              (send_post_to_channel deliver now st post ch).2.1 post
              rest).1 := rfl

theorem sendResults_skip_invariant (deliver : String → Nat → Option String)
    (now : ℚ) (post : Post) (c : String) :
    ∀ (channels : List String) (st : DispatchState),
      should_skip st.retry c = true →
      should_skip (sendResults deliver now st post channels).2.1.retry c
          = true ∧
      ((sendResults deliver now st post channels).2.2).any (attemptsOn c)
          = false := by
  intro channels
  induction channels with
  | nil => intro st hc; exact ⟨hc, by simp [sendResults]⟩
  | cons ch rest ih =>
    intro st hc
    have h1 := send_post_skip_invariant deliver now st post ch c hc
    have h2 := ih (send_post_to_channel deliver now st post ch).2.1 h1.1
    constructor
    · rw [sendResults_state_eq]
      exact h2.1
    · rw [sendResults_trace_eq, List.any_append, h1.2, h2.2]
      rfl

theorem sendBatchLoop_state_eq (deliver : String → Nat → Option String)
    (now : ℚ) (channels : List String) (st : DispatchState) (p : Post)
    (rest : List Post) :
    (sendBatchLoop deliver now channels st (p :: rest)).2.1
      = (sendBatchLoop deliver now channels
          (sendResults deliver now st p channels).2.1 rest).2.1 := rfl

theorem sendBatchLoop_skip_invariant
    (deliver : String → Nat → Option String) (now : ℚ)
    (channels : List String) (c : String) :
    ∀ (posts : List Post) (st : DispatchState),
      should_skip st.retry c = true →
      should_skip (sendBatchLoop deliver now channels st posts).2.1.retry c
          = true ∧
      ((sendBatchLoop deliver now channels st posts).2.2.2).any
        (attemptsOn c) = false := by
  intro posts
  induction posts with
  | nil => intro st hc; exact ⟨hc, by simp [sendBatchLoop]⟩
  | cons p rest ih =>
    intro st hc
    have h1 := sendResults_skip_invariant deliver now p c channels st hc
    have h2 := ih (sendResults deliver now st p channels).2.1 h1.1
    constructor
    · rw [sendBatchLoop_state_eq]
      exact h2.1
    · rw [sendBatchLoop_trace_eq, List.any_append, h1.2]
      simp [List.any_cons, attemptsOn, h2.2]

theorem retryLoop_skip_invariant (deliver : String → Nat → Option String)
    (now : ℚ) (rows : List Post) (c : String) :
    ∀ (fails : List (Nat × String)) (st : DispatchState),
      should_skip st.retry c = true →
      should_skip (retryLoop deliver now rows st fails).1.retry c = true ∧
      ((retryLoop deliver now rows st fails).2).any (attemptsOn c)
          = false := by
  intro fails
  induction fails with
  | nil => intro st hc; exact ⟨hc, by simp [retryLoop]⟩
  | cons f rest ih =>
    intro st hc
    rcases f with ⟨fpid, fch⟩
    cases hfind : rows.find? (fun p => p.id == fpid) with
    | some post =>
      have h1 := send_post_skip_invariant deliver now st post fch c hc
      have h2 := ih (send_post_to_channel deliver now st post fch).2.1 h1.1
      constructor
      · simpa only [retryLoop, hfind] using h2.1
      · simp only [retryLoop, hfind, List.any_append, h1.2, h2.2]
        rfl
    | none =>
      have h2 := ih st hc
      exact ⟨by simpa only [retryLoop, hfind] using h2.1,
        by simpa only [retryLoop, hfind] using h2.2⟩

theorem failedOf_mem_of_skip (deliver : String → Nat → Option String)
    (now : ℚ) (post : Post) (c : String) :
    ∀ (channels : List String) (st : DispatchState),
      should_skip st.retry c = true → c ∈ channels →
      (post.id, c) ∈ failedOf post.id channels
        (sendResults deliver now st post channels).1 := by
  intro channels
  induction channels with
  | nil => intro st _ hcm; cases hcm
  | cons ch rest ih =>
    intro st hskip hcm
    rw [sendResults_results_eq]
    rcases List.mem_cons.mp hcm with hce | hcr
    · subst hce
      have hres : (send_post_to_channel deliver now st post c).1 = false := by
        simp [send_post_to_channel, hskip]
      rw [hres]
      simp [failedOf]
    · have h1 := send_post_skip_invariant deliver now st post ch c hskip
      have h2 := ih (send_post_to_channel deliver now st post ch).2.1
        h1.1 hcr
      cases hres : (send_post_to_channel deliver now st post ch).1 <;>
        simp [failedOf, h2]

theorem sendBatchLoop_fails_of_skip
    (deliver : String → Nat → Option String) (now : ℚ)
    (channels : List String) (c : String) (hcm : c ∈ channels) :
    ∀ (posts : List Post) (st : DispatchState),
      should_skip st.retry c = true →
      ∀ p ∈ posts,
        (p.id, c) ∈ (sendBatchLoop deliver now channels st posts).2.2.1 := by
  intro posts
  induction posts with
  | nil => intro st _ p hp; cases hp
  | cons q rest ih =>
    intro st hskip p hp
    rw [sendBatchLoop_fails_eq]
    rcases List.mem_cons.mp hp with hpe | hpr
    · subst hpe
      exact List.mem_append_left _
        (failedOf_mem_of_skip deliver now p c channels st hskip hcm)
    · have h1 := sendResults_skip_invariant deliver now q c channels st hskip
      exact List.mem_append_right _
        (ih (sendResults deliver now st q channels).2.1 h1.1 p hpr)

/-- C4 amended: a destination that is skip-listed at the start of a
dispatch pass stays skip-listed throughout it, is never attempted — the
whole pass (retry included) emits no Governor acquisition and no
delivery call for it — but, contrary to the original claim, every
(post, destination) pair for it *is* appended to the run-wide
`failed_sends` list driving the retry pass (whose own attempt is again
stopped by the skip check). -/
theorem skip_listed_not_attempted_but_counted
    (deliver : String → Nat → Option String) (now : ℚ)
    (st : DispatchState) (channels : List String) (posts : List Post)
    (c : String) (hstop : st.emergency_stopped = false)
    (hcm : c ∈ channels) (hskip : should_skip st.retry c = true) :
    ((send_batch_to_all_channels deliver now st channels
        posts).2.2.2).any (attemptsOn c) = false ∧
    ∀ p ∈ posts,
      (p.id, c) ∈ (send_batch_to_all_channels deliver now st channels
        posts).2.2.1 := by
  have hloop := sendBatchLoop_skip_invariant deliver now channels c posts
    st hskip
  have hfails := sendBatchLoop_fails_of_skip deliver now channels c hcm
    posts st hskip
  by_cases hfq : (sendBatchLoop deliver now channels st posts).2.2.1 = []
  · have hkey : send_batch_to_all_channels deliver now st channels posts
        = sendBatchLoop deliver now channels st posts := by
      unfold send_batch_to_all_channels
      rw [if_neg (by simp [hstop])]
      simp only [ne_eq, hfq, not_true_eq_false, if_false]
      rw [← hfq]
    rw [hkey]
    exact ⟨hloop.2, hfails⟩
  · have hkey2 : (send_batch_to_all_channels deliver now st channels
        posts).2.2.1
        = (sendBatchLoop deliver now channels st posts).2.2.1 := by
      unfold send_batch_to_all_channels
      rw [if_neg (by simp [hstop])]
      simp only [ne_eq, hfq, not_false_eq_true, if_true]
    have hkey4 : (send_batch_to_all_channels deliver now st channels
        posts).2.2.2
        = (sendBatchLoop deliver now channels st posts).2.2.2
          ++ (retryLoop deliver now
              (sendBatchLoop deliver now channels st posts).1
              (sendBatchLoop deliver now channels st posts).2.1
              (sendBatchLoop deliver now channels st posts).2.2.1).2 := by
      unfold send_batch_to_all_channels
      rw [if_neg (by simp [hstop])]
      simp only [ne_eq, hfq, not_false_eq_true, if_true]
    have hretry := retryLoop_skip_invariant deliver now
      (sendBatchLoop deliver now channels st posts).1 c
      (sendBatchLoop deliver now channels st posts).2.2.1
      (sendBatchLoop deliver now channels st posts).2.1 hloop.1
    rw [hkey2, hkey4]
    refine ⟨?_, hfails⟩
    rw [List.any_append, hloop.2, hretry.2]
    rfl

/-- Witness for C4 on the concrete `run4` pass: `B` skip-listed, one
post, no attempt events on `B`, yet `(1, B)` in `failed_sends`. -/
theorem skip_listed_not_attempted_but_counted_witness :
    ((send_batch_to_all_channels deliverOk 0 skipBDispatch ["A", "B"]
        [⟨1, "m1", false, 0, 0, none⟩]).2.2.2).any (attemptsOn "B")
      = false ∧
    ∀ p ∈ [(⟨1, "m1", false, 0, 0, none⟩ : Post)],
      (p.id, "B") ∈ (send_batch_to_all_channels deliverOk 0 skipBDispatch
        ["A", "B"] [⟨1, "m1", false, 0, 0, none⟩]).2.2.1 :=
  skip_listed_not_attempted_but_counted deliverOk 0 skipBDispatch
    ["A", "B"] [⟨1, "m1", false, 0, 0, none⟩] "B" rfl (by simp)
    (by decide)

/-- Witness for C1 on a one-post, one-channel pass from fresh state. -/
theorem delivered_once_after_all_attempts_witness :
    ((send_batch_to_all_channels deliverOk 0 freshDispatch ["A"]
        [⟨1, "m1", false, 0, 0, none⟩]).1.map Post.id
      = [(⟨1, "m1", false, 0, 0, none⟩ : Post)].map Post.id) ∧
    (∀ p' ∈ (send_batch_to_all_channels deliverOk 0 freshDispatch ["A"]
        [⟨1, "m1", false, 0, 0, none⟩]).1, p'.posted = true) ∧
    (∀ p ∈ [(⟨1, "m1", false, 0, 0, none⟩ : Post)], ∃ l1 l2,
      (send_batch_to_all_channels deliverOk 0 freshDispatch ["A"]
        [⟨1, "m1", false, 0, 0, none⟩]).2.2.2
          = l1 ++ .mark p.id :: l2 ∧
      countMark p.id l1 = 0 ∧ countMark p.id l2 = 0 ∧
      ∀ c ∈ ["A"], l1.any (resolvesPair c p.id) = true) :=
  delivered_once_after_all_attempts deliverOk 0 freshDispatch ["A"]
    [⟨1, "m1", false, 0, 0, none⟩] rfl (by decide) (by decide)
